import Mathlib

/-!
Verification of the Virtual TA repository (student chat app, admin
knowledge-base manager, fallback model wrapper, sidebar utilities,
query-logging utility) against its natural-language specification.

The Python sources are shallowly embedded: session state becomes explicit
state passing, exceptions become `Except`, the streamed model output becomes
an explicit list of fragments, and the printed diagnostic lines become a
returned list of log strings.
-/

namespace VirtualTA

/-! ## Data model: chat messages (langchain HumanMessage / AIMessage) -/

/-- The role of a chat message: `human` embeds `HumanMessage`, `ai` embeds
`AIMessage`. -/
inductive Role where
  | human
  | ai
  deriving DecidableEq, Repr

/-- A chat message: a role together with its text content. -/
structure Msg where
  role : Role
  content : String
  deriving DecidableEq, Repr

/-- The synthetic greeting inserted at session start (app.py line 54). -/
def greeting : Msg :=
  ⟨Role.ai, "Hello! I\x27m your Virtual TA for ISOM 550. How can I help you today?"⟩

/-- Session-state slot for the chat history: `none` when the key
`chat_history` is absent from `st.session_state`, `some h` when present. -/
def ChatHistorySlot : Type := Option (List Msg)

/-- app.py lines 52-55: `if "chat_history" not in st.session_state:
st.session_state.chat_history = [AIMessage(greeting)]`. -/
def initChatHistory : Option (List Msg) → Option (List Msg)
  | none => some [greeting]
  | some h => some h

/-- sidebar.py lines 5-8, `clear_chat_history`: sets
`st.session_state.chat_history = []` (the key stays present) and reruns. -/
def clear_chat_history : Option (List Msg) → Option (List Msg) :=
  fun _ => some []

/-! ## Sidebar: `save_chat_history` (sidebar.py lines 10-26) -/

/-- The 50-character separator `"=" * 50` of sidebar.py line 18. -/
def eqSeparator : String := String.mk (List.replicate 50 '=')

/-- The 30-character separator `"-" * 30` of sidebar.py line 25. -/
def dashSeparator : String := String.mk (List.replicate 30 '-')

/-- One rendered message block (sidebar.py lines 21-24): the role test
`"AI" in str(type(message)) or "Assistant" in str(type(message))` holds
exactly for `AIMessage`, i.e. for role `ai`. -/
def renderMessage (m : Msg) : String :=
  if m.role = Role.ai then "🤖 AI Assistant:\n" ++ m.content ++ "\n\n"
  else "👤 Student:\n" ++ m.content ++ "\n\n"

/-- The successive pieces appended (`+=`) to `chat_content` by
sidebar.py lines 15-25, in order: title, timestamp line, count line, the
`=` separator, then per message its role-labeled block followed by the
`-` separator. -/
def savePieces (now : String) (hist : List Msg) : List String :=
  ["ISOM 550 DDA Virtual TA - Chat History\n",
   "Saved on: " ++ now ++ "\n",
   "Total Messages: " ++ toString hist.length ++ "\n",
   eqSeparator ++ "\n\n"]
  ++ hist.flatMap (fun m => [renderMessage m, dashSeparator ++ "\n\n"])

/-- sidebar.py lines 10-26, `save_chat_history`: the empty-history guard of
line 12, otherwise the concatenation of all appended pieces.  `now` is the
formatted timestamp of line 14. -/
def save_chat_history (now : String) (hist : List Msg) : String :=
  if hist.isEmpty then "No conversation history to save."
  else String.join (savePieces now hist)

/-! ## Student chat app (app.py lines 77-103) -/

/-- app.py lines 83-87: `chat_history[-4:] if len(chat_history) > 4 else
chat_history`. -/
def recentHistory (h : List Msg) : List Msg :=
  if 4 < h.length then h.drop (h.length - 4) else h

/-- The labeled lines of app.py lines 88-89:
the label Human for an even
index and AI for an odd index, then the message content, over
`enumerate(recent_history)`. -/
def historyLines (msgs : List Msg) : List String :=
  msgs.enum.map (fun p => (if p.1 % 2 = 0 then "Human" else "AI") ++ ": " ++ p.2.content)

/-- app.py lines 88-89: `"\n".join(...)` of the labeled lines. -/
def historyText (msgs : List Msg) : String :=
  String.intercalate "\n" (historyLines msgs)

/-- The fixed error banner of app.py line 79. -/
def kbUnavailableMsg : String :=
  "Knowledge base not available. Please contact your instructor."

/-- One chat turn, app.py lines 77-103.  `dbOk` and `chainOk` embed the
truthiness of `db` and `rag_chain`; `chain` abstracts the RAG chain as a
function from (query, history text) to the concatenated streamed answer.
Returns the new history and the error banner rendered, if any. -/
def mainTurn (dbOk chainOk : Bool) (chain : String → String → String)
    (history : List Msg) (query : String) : List Msg × Option String :=
  if !dbOk || !chainOk then (history, some kbUnavailableMsg)
  else
    let ht := historyText (recentHistory history)
    let response := chain query ht
    (history ++ [⟨Role.human, query⟩, ⟨Role.ai, response⟩], none)

/-! ## Admin page: password gate (Knowledge_Base_Admin.py lines 30-70) -/

/-- The session state consulted by `check_password`: the
`password_correct` flag (`none` while the key is absent) and the value of
the `password` text-input key (`none` once deleted). -/
structure AdminState where
  password_correct : Option Bool
  password : Option String
  deriving DecidableEq, Repr

/-- Knowledge_Base_Admin.py lines 33-40, `password_entered`: compare
`st.session_state["password"]` with the configured secret; on match set the
flag and delete the `password` key, otherwise set the flag to false (the
submitted value is left in place). -/
def password_entered (secret : String) (s : AdminState) : AdminState :=
  if s.password = some secret then
    ⟨some true, none⟩
  else
    ⟨some false, s.password⟩

/-- Knowledge_Base_Admin.py line 43: `st.session_state.get("password_correct",
False)` decides whether `check_password` returns `True`. -/
def check_password (s : AdminState) : Bool :=
  s.password_correct.getD false

/-- Knowledge_Base_Admin.py lines 69-70: `if not check_password(): st.stop()`
— the protected page content renders exactly when the gate passes. -/
def protectedContentRendered (s : AdminState) : Bool :=
  check_password s

/-! ## Knowledge base store (Knowledge_Base_Admin.py lines 103-119)

The store at `db_path` is modelled as `Option (List α)`: `none` when no
`index.faiss` file exists there, `some docs` for an index holding `docs`.
The FAISS library operations are embedded by their documented semantics. -/

/-- `FAISS.load_local(db_path, embeddings)`: returns the documents persisted
at the path (only called under the existence check). -/
def load_local (existing : List α) : List α := existing

/-- `db.add_documents(chunks)`: embeds and appends the chunks to the index. -/
def add_documents (db chunks : List α) : List α := db ++ chunks

/-- `FAISS.from_documents(chunks, embeddings)`: a brand-new index holding
exactly the chunks. -/
def from_documents (chunks : List α) : List α := chunks

/-- `os.makedirs(db_path, exist_ok=True)` followed by `db.save_local(db_path)`:
persists `db` at the path, overwriting whatever was there. -/
def save_local (db : List α) : Option (List α) := some db

/-- Knowledge_Base_Admin.py lines 103-119, `update_or_create_faiss_index`:
if `index.faiss` exists load it and append the chunks, else build a new
index from the chunks; then create the directory and save. -/
def update_or_create_faiss_index (chunks : List α) (store : Option (List α)) :
    Option (List α) :=
  match store with
  | some existing => save_local (add_documents (load_local existing) chunks)
  | none => save_local (from_documents chunks)

/-! ## Document ingestion: `process_file` (Knowledge_Base_Admin.py 86-101) -/

/-- Whether the transient on-disk copy of the uploaded bytes exists. -/
structure TmpFS where
  tmpExists : Bool
  deriving DecidableEq, Repr

/-- `tempfile.NamedTemporaryFile(delete=False, ...)` plus the write of the
uploaded bytes: the transient file now exists. -/
def writeTmpFile (_fs : TmpFS) : TmpFS := ⟨true⟩

/-- `os.unlink(tmp_file_path)`: the transient file is removed. -/
def unlinkTmpFile (_fs : TmpFS) : TmpFS := ⟨false⟩

/-- `try: body finally: cleanup`: the cleanup runs whether the body
returned chunks or raised, and the body outcome then propagates. -/
def tryFinally (body : Except String (List α)) (cleanup : TmpFS → TmpFS)
    (fs : TmpFS) : Except String (List α) × TmpFS :=
  (body, cleanup fs)

/-- Knowledge_Base_Admin.py lines 86-101, `process_file`: materialize the
upload to a transient file, then load and split inside `try`/`finally` with
`os.unlink` in the `finally`.  `loadAndSplit` is the outcome of
`loader.load()` + `text_splitter.split_documents` (chunks, or the raised
error). -/
def process_file (loadAndSplit : Except String (List α)) (fs : TmpFS) :
    Except String (List α) × TmpFS :=
  let fs1 := writeTmpFile fs
  tryFinally loadAndSplit unlinkTmpFile fs1

/-! ## Fallback model wrapper (llm_models.py lines 11-76)

A model handle is embedded per calling convention as a function from the
argument payload to `Except String result` (the string is `str(error)` as it
is interpolated into the diagnostic line).  A streaming call that starts
successfully hands back a `StreamRun`: the fragments the primary yields plus
an optional error raised mid-iteration, after those fragments. -/

/-- The observable behaviour of one streaming call that did start: the
yielded fragments, then optionally an error raised during iteration. -/
structure StreamRun (β : Type) where
  chunks : List β
  midStreamError : Option String
  deriving DecidableEq, Repr

/-- One chat model handle (`BaseChatModel`): its six calling conventions.
`generate`/`agenerate` embed the low-level `_generate`/`_agenerate`. -/
structure ChatModel (α β : Type) where
  invoke : α → Except String β
  ainvoke : α → Except String β
  stream : α → Except String (StreamRun β)
  astream : α → Except String (StreamRun β)
  generate : α → Except String β
  agenerate : α → Except String β

/-- llm_models.py lines 11-25, `ModelWithFallback`: primary, fallback and the
verbose flag (default `True`). -/
structure ModelWithFallback (α β : Type) where
  primary : ChatModel α β
  fallback : ChatModel α β
  verbose : Bool := true

/-- llm_models.py lines 27-30, `_log_fallback`: the printed diagnostic lines
(none when verbose is off). -/
def logFallback (verbose : Bool) (methodName error : String) : List String :=
  if verbose then
    ["Primary model " ++ methodName ++ " failed with error: " ++ error ++
      ". Falling back to backup model."]
  else []

/-- llm_models.py lines 46-51, `invoke`: try the primary, on any error log
and return the fallback result.  Result paired with the emitted log lines. -/
def ModelWithFallback.invoke (w : ModelWithFallback α β) (args : α) :
    Except String β × List String :=
  match w.primary.invoke args with
  | Except.ok r => (Except.ok r, [])
  | Except.error e => (w.fallback.invoke args, logFallback w.verbose "invoke" e)

/-- llm_models.py lines 53-58, `ainvoke` (awaited calls embedded as their
resolved outcomes). -/
def ModelWithFallback.ainvoke (w : ModelWithFallback α β) (args : α) :
    Except String β × List String :=
  match w.primary.ainvoke args with
  | Except.ok r => (Except.ok r, [])
  | Except.error e => (w.fallback.ainvoke args, logFallback w.verbose "ainvoke" e)

/-- llm_models.py lines 60-65, `stream`: only an error raised by the call
itself (before a stream is handed back) is caught. -/
def ModelWithFallback.stream (w : ModelWithFallback α β) (args : α) :
    Except String (StreamRun β) × List String :=
  match w.primary.stream args with
  | Except.ok r => (Except.ok r, [])
  | Except.error e => (w.fallback.stream args, logFallback w.verbose "stream" e)

/-- llm_models.py lines 67-72, `astream`. -/
def ModelWithFallback.astream (w : ModelWithFallback α β) (args : α) :
    Except String (StreamRun β) × List String :=
  match w.primary.astream args with
  | Except.ok r => (Except.ok r, [])
  | Except.error e => (w.fallback.astream args, logFallback w.verbose "astream" e)

/-- llm_models.py lines 32-37, `_generate`. -/
def ModelWithFallback.generate (w : ModelWithFallback α β) (args : α) :
    Except String β × List String :=
  match w.primary.generate args with
  | Except.ok r => (Except.ok r, [])
  | Except.error e => (w.fallback.generate args, logFallback w.verbose "_generate" e)

/-- llm_models.py lines 39-44, `_agenerate`. -/
def ModelWithFallback.agenerate (w : ModelWithFallback α β) (args : α) :
    Except String β × List String :=
  match w.primary.agenerate args with
  | Except.ok r => (Except.ok r, [])
  | Except.error e => (w.fallback.agenerate args, logFallback w.verbose "_agenerate" e)

/-! ## Query logging (utils.py lines 36-48)

A MongoDB document is embedded as an insertion-ordered association list of
fields; `dictUpdate` embeds Python `dict.update` (overwrite in place,
append new keys at the end). -/

/-- Python `d[k] = v`: overwrite the entry in place when the key is present,
otherwise append it. -/
def dictInsert (d : List (String × String)) (k v : String) :
    List (String × String) :=
  if d.any (fun p => p.1 == k) then
    d.map (fun p => if p.1 == k then (k, v) else p)
  else d ++ [(k, v)]

/-- Python `d.update(kvs)`: insert every pair of `kvs` in order. -/
def dictUpdate (d kvs : List (String × String)) : List (String × String) :=
  kvs.foldl (fun acc p => dictInsert acc p.1 p.2) d

/-- `d[k]` lookup: the value of the first (and, for key-unique documents,
only) entry with key `k`. -/
def dictLookup (d : List (String × String)) (k : String) : Option String :=
  (d.find? (fun p => p.1 == k)).map (fun p => p.2)

/-- utils.py lines 36-43: the document inserted by
`process_and_store_query` — a dict holding the key `timestamp` mapped to
`datetime.now()`, then updated with `kwargs`.  `now` is the rendered automatic timestamp. -/
def storedQueryDocument (now : String) (kwargs : List (String × String)) :
    List (String × String) :=
  dictUpdate [("timestamp", now)] kwargs

/-! ## Contract of the fallback wrapper, shared by all calling conventions -/

/-- The per-convention contract of `ModelWithFallback`: on primary success
the primary result is returned with no log; on a primary error the fallback
is consulted with the same arguments, the diagnostic line is emitted exactly
when verbose is on, and a fallback error is the one that propagates. -/
def FallbackSpec {α β γ : Type}
    (call : ModelWithFallback α β → α → Except String γ × List String)
    (proj : ChatModel α β → α → Except String γ) (methodName : String) : Prop :=
  ∀ (w : ModelWithFallback α β) (args : α),
    (∀ r, proj w.primary args = Except.ok r → call w args = (Except.ok r, []))
    ∧ (∀ e, proj w.primary args = Except.error e →
        (call w args).1 = proj w.fallback args
        ∧ (call w args).2
          = (if w.verbose then
              ["Primary model " ++ methodName ++ " failed with error: " ++ e ++
                ". Falling back to backup model."]
            else []))
    ∧ (∀ e e2, proj w.primary args = Except.error e →
        proj w.fallback args = Except.error e2 →
        (call w args).1 = Except.error e2)

/-! ## Concrete model handles used to exercise the wrapper -/

/-- A handle whose every convention raises. -/
def failingModel : ChatModel Nat String :=
  ⟨fun _ => Except.error "boom1", fun _ => Except.error "boom1",
   fun _ => Except.error "boom1", fun _ => Except.error "boom1",
   fun _ => Except.error "boom1", fun _ => Except.error "boom1"⟩

/-- A second always-raising handle with a distinct error. -/
def failingModel2 : ChatModel Nat String :=
  ⟨fun _ => Except.error "boom2", fun _ => Except.error "boom2",
   fun _ => Except.error "boom2", fun _ => Except.error "boom2",
   fun _ => Except.error "boom2", fun _ => Except.error "boom2"⟩

/-- A handle whose every convention succeeds. -/
def okModel : ChatModel Nat String :=
  ⟨fun _ => Except.ok "V", fun _ => Except.ok "V",
   fun _ => Except.ok ⟨["V"], none⟩, fun _ => Except.ok ⟨["V"], none⟩,
   fun _ => Except.ok "V", fun _ => Except.ok "V"⟩

/-- A handle whose stream starts, yields two fragments, then fails
mid-iteration. -/
def partialStreamModel : ChatModel Nat String :=
  ⟨fun _ => Except.ok "V", fun _ => Except.ok "V",
   fun _ => Except.ok ⟨["Hel", "lo"], some "connection lost"⟩,
   fun _ => Except.ok ⟨["Hel", "lo"], some "connection lost"⟩,
   fun _ => Except.ok "V", fun _ => Except.ok "V"⟩

/-- Failing primary over a succeeding fallback, verbose on. -/
def wFallsBack : ModelWithFallback Nat String := ⟨failingModel, okModel, true⟩

/-- Both handles failing, verbose on. -/
def wExhausted : ModelWithFallback Nat String := ⟨failingModel, failingModel2, true⟩

/-- A primary that starts its stream and fails mid-iteration, over a
succeeding fallback. -/
def wPartial : ModelWithFallback Nat String := ⟨partialStreamModel, okModel, true⟩

end VirtualTA

namespace VirtualTA

/-! ## Helper lemmas -/

/-- The labeled lines of the recency window depend only on the message
contents, not on the roles: the label comes from the position. -/
theorem historyLines_eq_of_contents (w₁ w₂ : List Msg)
    (h : w₁.map Msg.content = w₂.map Msg.content) :
    historyLines w₁ = historyLines w₂ := by
  have key : ∀ w : List Msg,
      historyLines w = (w.map Msg.content).enum.map
        (fun p => (if p.1 % 2 = 0 then "Human" else "AI") ++ ": " ++ p.2) := by
    intro w
    rw [historyLines, List.enum_map, List.map_map]
    rfl
  rw [key, key, h]

/-- The first character of a concatenation is the first character of a
nonempty left part. -/
theorem head_append (s t : String) (c : Char) (h : s.data.head? = some c) :
    (s ++ t).data.head? = some c := by
  rw [String.data_append, List.head?_append, h]
  rfl

/-- Two strings with different first characters differ. -/
theorem ne_of_head (s t : String) (c d : Char) (hs : s.data.head? = some c)
    (ht : t.data.head? = some d) (hcd : c ≠ d) : s ≠ t := by
  intro h
  subst h
  rw [hs] at ht
  exact hcd (Option.some.inj ht)

/-- A rendered message block starts with the robot glyph for role `ai` and
the person glyph otherwise — the label is read off the role alone. -/
theorem renderMessage_head (m : Msg) :
    (renderMessage m).data.head?
      = some (if m.role = Role.ai then '🤖' else '👤') := by
  by_cases hr : m.role = Role.ai
  · rw [renderMessage, if_pos hr, if_pos hr]
    exact head_append _ _ _ (head_append _ _ _ (by decide))
  · rw [renderMessage, if_neg hr, if_neg hr]
    exact head_append _ _ _ (head_append _ _ _ (by decide))

/-- No rendered message block nor dash separator equals the `=` separator
piece, so the per-message pieces contribute no further `=` separator. -/
theorem countP_messagePieces (hist : List Msg) :
    (hist.flatMap (fun m => [renderMessage m, dashSeparator ++ "\n\n"])).countP
      (fun s => s == eqSeparator ++ "\n\n") = 0 := by
  induction hist with
  | nil => rfl
  | cons m t ih =>
    have h1 : renderMessage m ≠ eqSeparator ++ "\n\n" := by
      by_cases hr : m.role = Role.ai
      · exact ne_of_head _ _ '🤖' '='
          ((renderMessage_head m).trans (by rw [if_pos hr])) (by decide)
          (by decide)
      · exact ne_of_head _ _ '👤' '='
          ((renderMessage_head m).trans (by rw [if_neg hr])) (by decide)
          (by decide)
    have h2 : dashSeparator ++ "\n\n" ≠ eqSeparator ++ "\n\n" := by decide
    simp [List.flatMap_cons, List.countP_append, List.countP_cons, ih, h1, h2]

/-- Setting key `k` makes `k` look up the new value, whether the key was
overwritten in place or appended. -/
theorem dictLookup_dictInsert_self (d : List (String × String)) (k v : String) :
    dictLookup (dictInsert d k v) k = some v := by
  by_cases h : d.any (fun p => p.1 == k)
  · rw [dictInsert, if_pos h, dictLookup, List.find?_map]
    have hqf : ((fun p : String × String => p.1 == k) ∘
        (fun p => if p.1 == k then (k, v) else p))
          = fun p : String × String => p.1 == k := by
      funext p
      by_cases hp : (p.1 == k) = true
      · show ((if p.1 == k then (k, v) else p).1 == k) = (p.1 == k)
        rw [if_pos hp, eq_of_beq hp]
      · show ((if p.1 == k then (k, v) else p).1 == k) = (p.1 == k)
        rw [if_neg hp]
    rw [hqf]
    obtain ⟨p0, hp0⟩ : ∃ p0, d.find? (fun p => p.1 == k) = some p0 := by
      have hs : (d.find? (fun p => p.1 == k)).isSome :=
        List.find?_isSome.mpr (by simpa [List.any_eq_true] using h)
      exact Option.isSome_iff_exists.mp hs
    have hk : (p0.1 == k) = true := by simpa using List.find?_some hp0
    rw [hp0]
    show some ((if p0.1 == k then (k, v) else p0).2) = some v
    rw [if_pos hk]
  · rw [dictInsert, if_neg h, dictLookup, List.find?_append]
    have hnone : d.find? (fun p => p.1 == k) = none := by
      refine List.find?_eq_none.mpr ?_
      intro x hx
      simp only [List.any_eq_true, not_exists, not_and] at h
      exact h x hx
    rw [hnone]
    simp

/-- Setting a key different from `k` leaves the lookup of `k` unchanged. -/
theorem dictLookup_dictInsert_ne (d : List (String × String)) (k k2 v : String)
    (hne : k2 ≠ k) : dictLookup (dictInsert d k2 v) k = dictLookup d k := by
  by_cases h : d.any (fun p => p.1 == k2)
  · rw [dictInsert, if_pos h, dictLookup, List.find?_map]
    have hqf : ((fun p : String × String => p.1 == k) ∘
        (fun p => if p.1 == k2 then (k2, v) else p))
          = fun p : String × String => p.1 == k := by
      funext p
      by_cases hp : (p.1 == k2) = true
      · show ((if p.1 == k2 then (k2, v) else p).1 == k) = (p.1 == k)
        rw [if_pos hp, eq_of_beq hp]
      · show ((if p.1 == k2 then (k2, v) else p).1 == k) = (p.1 == k)
        rw [if_neg hp]
    rw [hqf, dictLookup]
    cases hf : d.find? (fun p => p.1 == k) with
    | none => rfl
    | some p0 =>
      have hk : p0.1 = k := eq_of_beq (by simpa using List.find?_some hf)
      have hne2 : ¬ (p0.1 == k2) = true := by
        simp only [beq_iff_eq, hk]
        exact fun hh => hne hh.symm
      show some ((if p0.1 == k2 then (k2, v) else p0).2) = some p0.2
      rw [if_neg hne2]
  · rw [dictInsert, if_neg h, dictLookup, List.find?_append]
    have hb : ¬ ((fun p : String × String => p.1 == k) (k2, v) = true) := by
      simp [hne]
    have hlast : List.find? (fun p : String × String => p.1 == k) [(k2, v)]
        = none := by
      rw [List.find?_cons_of_neg ([] : List (String × String)) hb]
      rfl
    rw [hlast, dictLookup]
    simp

/-- `dict.update` semantics for lookup: after updating `d` with the
key-unique pairs `kvs`, a key found in `kvs` yields the `kvs` value
(overriding `d`), and any other key still yields its `d` value. -/
theorem dictUpdate_lookup (k : String) : ∀ (kvs d : List (String × String)),
    (kvs.map Prod.fst).Nodup →
    dictLookup (dictUpdate d kvs) k = (dictLookup kvs k).or (dictLookup d k) := by
  intro kvs
  induction kvs with
  | nil =>
    intro d _
    simp [dictUpdate, dictLookup]
  | cons p rest ih =>
    intro d hnd
    obtain ⟨k0, v0⟩ := p
    have hnd2 : (k0 :: rest.map Prod.fst).Nodup := by simpa using hnd
    have hmem : k0 ∉ rest.map Prod.fst := (List.nodup_cons.mp hnd2).1
    have hnd' : (rest.map Prod.fst).Nodup := (List.nodup_cons.mp hnd2).2
    have hstep : dictUpdate d ((k0, v0) :: rest)
        = dictUpdate (dictInsert d k0 v0) rest := rfl
    rw [hstep, ih (dictInsert d k0 v0) hnd']
    by_cases hk : k0 = k
    · subst hk
      have hrest : dictLookup rest k0 = none := by
        rw [dictLookup]
        refine Option.map_eq_none.mpr (List.find?_eq_none.mpr ?_)
        intro x hx
        intro hbeq
        exact hmem (by
          have hx1 : x.1 = k0 := eq_of_beq (by simpa using hbeq)
          exact hx1 ▸ List.mem_map_of_mem Prod.fst hx)
      rw [hrest, dictLookup_dictInsert_self]
      have hpos : (fun p : String × String => p.1 == k0) (k0, v0) = true := by
        simp
      have hhead : dictLookup ((k0, v0) :: rest) k0 = some v0 := by
        rw [dictLookup, List.find?_cons_of_pos rest hpos]
        rfl
      rw [hhead]
      rfl
    · rw [dictLookup_dictInsert_ne d k k0 v0 hk]
      have hneg : ¬ ((fun p : String × String => p.1 == k) (k0, v0) = true) := by
        simp [hk]
      have hhead : dictLookup ((k0, v0) :: rest) k = dictLookup rest k := by
        rw [dictLookup, List.find?_cons_of_neg rest hneg, dictLookup]
      rw [hhead]

/-! ## Claim theorems -/

/-- C2 counterexample: starting a fresh session, pressing Clear and
re-rendering leaves the chat history EMPTY — it does not begin with the
synthetic greeting, because `clear_chat_history` stores `[]` under the
still-present session key and the initializer only fires when the key is
absent. -/
theorem claim_C2_counterexample :
    initChatHistory (clear_chat_history (initChatHistory none)) = some []
    ∧ ((initChatHistory (clear_chat_history (initChatHistory none))).getD []).head?
        ≠ some greeting := by
  constructor
  · rfl
  · simp [initChatHistory, clear_chat_history]

/-- C2 (amended): at session start (key absent) the chat history is created
holding exactly the synthetic greeting, so it begins with it; `clear()`
however resets the sequence to the empty list while keeping the session key
present, so after a clear the re-initialization leaves the history empty and
it no longer begins with the greeting. -/
theorem claim_C2_amended :
    initChatHistory none = some [greeting]
    ∧ (∀ s, clear_chat_history s = some [])
    ∧ (∀ s, initChatHistory (clear_chat_history s) = some []) :=
  ⟨rfl, fun _ => rfl, fun _ => rfl⟩

/-- C3: submitting a password different from the configured admin secret
leaves the flag false and the protected content unrendered; submitting the
exact secret sets the flag true, deletes the submitted value from session
state, and renders the protected content. -/
theorem claim_C3 : ∀ (secret submitted : String) (s : AdminState),
    s.password = some submitted →
    (submitted ≠ secret →
      check_password (password_entered secret s) = false
      ∧ protectedContentRendered (password_entered secret s) = false)
    ∧ (submitted = secret →
      (password_entered secret s).password_correct = some true
      ∧ (password_entered secret s).password = none
      ∧ protectedContentRendered (password_entered secret s) = true) := by
  intro secret submitted s hsub
  constructor
  · intro hne
    have hcond : ¬ s.password = some secret := by
      rw [hsub]; simp [hne]
    simp [password_entered, hcond, check_password, protectedContentRendered]
  · intro heq
    have hcond : s.password = some secret := by rw [hsub, heq]
    simp [password_entered, hcond, check_password, protectedContentRendered]

/-- Witness for C3 at concrete inputs: a wrong password leaves the gate
closed; the exact secret deletes the submitted value. -/
theorem claim_C3_witness :
    check_password (password_entered "s3cret" ⟨none, some "wrong"⟩) = false
    ∧ (password_entered "s3cret" ⟨none, some "s3cret"⟩).password = none := by
  constructor
  · exact ((claim_C3 "s3cret" "wrong" ⟨none, some "wrong"⟩ rfl).1 (by decide)).1
  · exact ((claim_C3 "s3cret" "s3cret" ⟨none, some "s3cret"⟩ rfl).2 rfl).2.1

/-- C4: the update-or-create write sequence creates a brand-new index with
exactly the supplied chunks when none exists, appends to the loaded index
when one exists, and after a create call followed by an append call the
stored index is exactly the concatenation — its size is the sum of the two
chunk counts. -/
theorem claim_C4 : ∀ (α : Type) (c1 c2 existing : List α),
    update_or_create_faiss_index c1 (none : Option (List α)) = some c1
    ∧ update_or_create_faiss_index c2 (some existing) = some (existing ++ c2)
    ∧ update_or_create_faiss_index c2 (update_or_create_faiss_index c1 none)
        = some (c1 ++ c2)
    ∧ ((update_or_create_faiss_index c2
          (update_or_create_faiss_index c1 none)).getD []).length
        = c1.length + c2.length := by
  intro α c1 c2 existing
  refine ⟨rfl, rfl, rfl, ?_⟩
  simp [update_or_create_faiss_index, save_local, add_documents, load_local,
    from_documents]

/-- C5: when the knowledge base or the RAG chain is unavailable at
submission time, the fixed error banner is rendered and the chat history is
returned unchanged — neither the Human query nor any Assistant message is
appended. -/
theorem claim_C5 : ∀ (dbOk chainOk : Bool) (chain : String → String → String)
    (history : List Msg) (query : String),
    dbOk = false ∨ chainOk = false →
    mainTurn dbOk chainOk chain history query
      = (history,
         some "Knowledge base not available. Please contact your instructor.") := by
  intro dbOk chainOk chain history query h
  rcases h with h | h <;> subst h <;>
    simp [mainTurn, kbUnavailableMsg]

/-- Witness for C5: with the database missing, a submitted query leaves the
one-greeting history unchanged and renders the fixed banner. -/
theorem claim_C5_witness :
    mainTurn false true (fun _ _ => "answer") [greeting] "When is HW due?"
      = ([greeting],
         some "Knowledge base not available. Please contact your instructor.") :=
  claim_C5 false true (fun _ _ => "answer") [greeting] "When is HW due?"
    (Or.inl rfl)

/-- C9: `process_file` materializes the upload to a transient file (which
then exists) and, whether loading/splitting returns chunks or raises, the
`finally` clause deletes it: afterwards the transient file no longer
exists, and the load outcome (chunks or error) propagates unchanged. -/
theorem claim_C9 : ∀ (α : Type) (outcome : Except String (List α)) (fs : TmpFS),
    (writeTmpFile fs).tmpExists = true
    ∧ (process_file outcome fs).2.tmpExists = false
    ∧ (∀ chunks, outcome = Except.ok chunks →
        (process_file outcome fs).1 = Except.ok chunks
        ∧ (process_file outcome fs).2.tmpExists = false)
    ∧ (∀ e, outcome = Except.error e →
        (process_file outcome fs).1 = Except.error e
        ∧ (process_file outcome fs).2.tmpExists = false) := by
  intro α outcome fs
  refine ⟨rfl, rfl, ?_, ?_⟩
  · intro chunks h
    subst h
    exact ⟨rfl, rfl⟩
  · intro e h
    subst h
    exact ⟨rfl, rfl⟩

/-- Witness for C9 at concrete inputs: both a successful load of one chunk
and a raising load leave the transient file deleted. -/
theorem claim_C9_witness :
    (process_file (Except.ok ["chunk"]) ⟨false⟩).2.tmpExists = false
    ∧ (process_file (Except.error "load failed" : Except String (List String))
        ⟨false⟩).2.tmpExists = false := by
  constructor
  · exact ((claim_C9 String (Except.ok ["chunk"]) ⟨false⟩).2.2.1 ["chunk"] rfl).2
  · exact ((claim_C9 String (Except.error "load failed") ⟨false⟩).2.2.2
      "load failed" rfl).2

/-- C6: the recency window is the last 4 messages of the history (all of
them when at most 4 exist), in original order; the rendered lines label
position `i` of the window "Human" when `i` is even and "AI" when `i` is
odd, reading only the message content — the label is independent of the
actual roles. -/
theorem claim_C6 :
    (∀ h : List Msg,
      recentHistory h = h.drop (h.length - 4)
      ∧ (recentHistory h).length = min h.length 4
      ∧ (h.length ≤ 4 → recentHistory h = h))
    ∧ (∀ w₁ w₂ : List Msg, w₁.map Msg.content = w₂.map Msg.content →
        historyText w₁ = historyText w₂)
    ∧ (∀ (msgs : List Msg) (i : Nat),
        (historyLines msgs)[i]?
          = (msgs[i]?).map
              (fun m => (if i % 2 = 0 then "Human" else "AI") ++ ": " ++ m.content)) := by
  refine ⟨?_, ?_, ?_⟩
  · intro h
    refine ⟨?_, ?_, ?_⟩
    · by_cases hl : 4 < h.length
      · simp [recentHistory, hl]
      · have h0 : h.length - 4 = 0 := by omega
        simp [recentHistory, hl, h0]
    · by_cases hl : 4 < h.length
      · simp only [recentHistory, hl, if_true, List.length_drop]
        omega
      · simp only [recentHistory, hl, if_false]
        omega
    · intro hle
      have hl : ¬ 4 < h.length := by omega
      simp [recentHistory, hl]
  · intro w₁ w₂ h
    rw [historyText, historyText, historyLines_eq_of_contents w₁ w₂ h]
  · intro msgs i
    rw [historyLines, List.getElem?_map, List.getElem?_enum]
    cases msgs[i]? <;> rfl

/-- Witness for C6 per the spec examples: a 6-message history windows to its
last 4 in order, a 2-message history to all 2; and a window whose roles are
all Assistant renders identically to one whose roles are all Human with the
same contents — even positions still read "Human". -/
theorem claim_C6_witness :
    recentHistory [⟨Role.ai, "m1"⟩, ⟨Role.human, "m2"⟩, ⟨Role.ai, "m3"⟩,
        ⟨Role.human, "m4"⟩, ⟨Role.ai, "m5"⟩, ⟨Role.human, "m6"⟩]
      = [⟨Role.ai, "m3"⟩, ⟨Role.human, "m4"⟩, ⟨Role.ai, "m5"⟩,
         ⟨Role.human, "m6"⟩]
    ∧ recentHistory [⟨Role.ai, "m1"⟩, ⟨Role.human, "m2"⟩]
        = [⟨Role.ai, "m1"⟩, ⟨Role.human, "m2"⟩]
    ∧ historyText [⟨Role.ai, "a"⟩, ⟨Role.ai, "b"⟩]
        = historyText [⟨Role.human, "a"⟩, ⟨Role.human, "b"⟩]
    ∧ (historyLines [⟨Role.ai, "a"⟩, ⟨Role.ai, "b"⟩])[0]? = some "Human: a" := by
  refine ⟨?_, ?_, ?_, ?_⟩
  · exact (claim_C6.1 [⟨Role.ai, "m1"⟩, ⟨Role.human, "m2"⟩, ⟨Role.ai, "m3"⟩,
      ⟨Role.human, "m4"⟩, ⟨Role.ai, "m5"⟩, ⟨Role.human, "m6"⟩]).1.trans (by rfl)
  · exact (claim_C6.1 [⟨Role.ai, "m1"⟩, ⟨Role.human, "m2"⟩]).2.2 (by decide)
  · exact claim_C6.2.1 [⟨Role.ai, "a"⟩, ⟨Role.ai, "b"⟩]
      [⟨Role.human, "a"⟩, ⟨Role.human, "b"⟩] (by rfl)
  · exact (claim_C6.2.2 [⟨Role.ai, "a"⟩, ⟨Role.ai, "b"⟩] 0).trans (by rfl)

/-- C7: on an empty history the export returns exactly the fixed string; on
a non-empty history it is the concatenation of its pieces, whose first four
pieces are the fixed title, the timestamp line, the message-count line and
the 50-character `=` separator, the `=` separator piece occurring exactly
once in the whole piece list; the remaining pieces are, per message in
order, a role-labeled block (robot glyph exactly when the message role is
Assistant, person glyph otherwise, decided by the role, never the position)
followed by the 30-character `-` separator piece. -/
theorem claim_C7 :
    (∀ now, save_chat_history now [] = "No conversation history to save.")
    ∧ (∀ now (hist : List Msg), hist ≠ [] →
        save_chat_history now hist = String.join (savePieces now hist))
    ∧ (∀ now (hist : List Msg),
        (savePieces now hist).countP (fun s => s == eqSeparator ++ "\n\n") = 1
        ∧ (savePieces now hist).take 4
            = ["ISOM 550 DDA Virtual TA - Chat History\n",
               "Saved on: " ++ now ++ "\n",
               "Total Messages: " ++ toString hist.length ++ "\n",
               eqSeparator ++ "\n\n"]
        ∧ (savePieces now hist).drop 4
            = hist.flatMap (fun m => [renderMessage m, dashSeparator ++ "\n\n"]))
    ∧ (∀ m : Msg, (renderMessage m).data.head?
        = some (if m.role = Role.ai then '🤖' else '👤')) := by
  refine ⟨fun _ => rfl, ?_, ?_, renderMessage_head⟩
  · intro now hist h
    cases hist with
    | nil => exact absurd rfl h
    | cons m t => rfl
  · intro now hist
    refine ⟨?_, rfl, rfl⟩
    have hties : ("ISOM 550 DDA Virtual TA - Chat History\n" : String)
        ≠ eqSeparator ++ "\n\n" := by decide
    have hsaved : ("Saved on: " ++ now ++ "\n") ≠ eqSeparator ++ "\n\n" :=
      ne_of_head _ _ 'S' '='
        (head_append _ _ _ (head_append _ _ _ (by decide))) (by decide)
        (by decide)
    have htotal : ("Total Messages: " ++ toString hist.length ++ "\n")
        ≠ eqSeparator ++ "\n\n" :=
      ne_of_head _ _ 'T' '='
        (head_append _ _ _ (head_append _ _ _ (by decide))) (by decide)
        (by decide)
    simp [savePieces, List.countP_append, List.countP_cons,
      countP_messagePieces, hties, hsaved, htotal]

/-- Witness for C7: the export of a one-greeting history at a concrete
timestamp is the concatenation of its pieces. -/
theorem claim_C7_witness :
    save_chat_history "2025-01-01 12:00:00" [greeting]
      = String.join (savePieces "2025-01-01 12:00:00" [greeting]) :=
  claim_C7.2.1 "2025-01-01 12:00:00" [greeting] (by decide)

/-- C1: every calling convention of `ModelWithFallback` (sync/async invoke,
sync/async stream, low-level generate — and its async twin) satisfies the
fallback contract: the primary is attempted with the given arguments and on
success its result is returned with no log; on any primary error the
diagnostic line naming the convention and the error is emitted exactly when
verbose is enabled, the fallback is consulted once with the same arguments
and its result returned; and when the fallback also raises, the error the
caller observes is the fallback one. -/
theorem claim_C1 : ∀ (α β : Type),
    FallbackSpec (ModelWithFallback.invoke (α := α) (β := β))
      ChatModel.invoke "invoke"
    ∧ FallbackSpec (ModelWithFallback.ainvoke (α := α) (β := β))
      ChatModel.ainvoke "ainvoke"
    ∧ FallbackSpec (ModelWithFallback.stream (α := α) (β := β))
      ChatModel.stream "stream"
    ∧ FallbackSpec (ModelWithFallback.astream (α := α) (β := β))
      ChatModel.astream "astream"
    ∧ FallbackSpec (ModelWithFallback.generate (α := α) (β := β))
      ChatModel.generate "_generate"
    ∧ FallbackSpec (ModelWithFallback.agenerate (α := α) (β := β))
      ChatModel.agenerate "_agenerate" := by
  intro α β
  refine ⟨?_, ?_, ?_, ?_, ?_, ?_⟩ <;>
  · intro w args
    refine ⟨?_, ?_, ?_⟩
    · intro r h
      simp [ModelWithFallback.invoke, ModelWithFallback.ainvoke,
        ModelWithFallback.stream, ModelWithFallback.astream,
        ModelWithFallback.generate, ModelWithFallback.agenerate, h]
    · intro e h
      simp [ModelWithFallback.invoke, ModelWithFallback.ainvoke,
        ModelWithFallback.stream, ModelWithFallback.astream,
        ModelWithFallback.generate, ModelWithFallback.agenerate, h,
        logFallback]
    · intro e e2 h h2
      simp [ModelWithFallback.invoke, ModelWithFallback.ainvoke,
        ModelWithFallback.stream, ModelWithFallback.astream,
        ModelWithFallback.generate, ModelWithFallback.agenerate, h, h2]

/-- Witness for C1 at concrete handles: with an always-raising primary over
a succeeding fallback, `invoke` yields the fallback value and exactly the
diagnostic line; with both handles raising, the caller sees the fallback
error `boom2`, not the primary `boom1`. -/
theorem claim_C1_witness :
    (wFallsBack.invoke 0).1 = Except.ok "V"
    ∧ (wFallsBack.invoke 0).2
        = ["Primary model invoke failed with error: boom1. Falling back to backup model."]
    ∧ (wExhausted.invoke 0).1 = Except.error "boom2"
    ∧ (wExhausted.generate 0).1 = Except.error "boom2" := by
  have hfb := ((claim_C1 Nat String).1 wFallsBack 0).2.1 "boom1" rfl
  refine ⟨hfb.1.trans rfl, hfb.2.trans rfl, ?_, ?_⟩
  · exact ((claim_C1 Nat String).1 wExhausted 0).2.2 "boom1" "boom2" rfl rfl
  · exact ((claim_C1 Nat String).2.2.2.2.1 wExhausted 0).2.2 "boom1" "boom2"
      rfl rfl

/-- C8: for the streaming conventions, only an error surfaced by the call
that starts the stream triggers the fallback; once the primary has handed
back a (possibly failing-mid-iteration) stream, that stream — its yielded
fragments and its mid-iteration error — is returned unchanged, with no log,
no retry on the fallback (the result is the same whatever the fallback
handle is) and no rollback of the already-yielded fragments. -/
theorem claim_C8 : ∀ (α β : Type) (w : ModelWithFallback α β) (args : α),
    (∀ run : StreamRun β, w.primary.stream args = Except.ok run →
      ModelWithFallback.stream w args = (Except.ok run, [])
      ∧ ∀ fb2 : ChatModel α β,
          ModelWithFallback.stream ⟨w.primary, fb2, w.verbose⟩ args
            = ModelWithFallback.stream w args)
    ∧ (∀ e, w.primary.stream args = Except.error e →
        (ModelWithFallback.stream w args).1 = w.fallback.stream args)
    ∧ (∀ run : StreamRun β, w.primary.astream args = Except.ok run →
      ModelWithFallback.astream w args = (Except.ok run, [])
      ∧ ∀ fb2 : ChatModel α β,
          ModelWithFallback.astream ⟨w.primary, fb2, w.verbose⟩ args
            = ModelWithFallback.astream w args)
    ∧ (∀ e, w.primary.astream args = Except.error e →
        (ModelWithFallback.astream w args).1 = w.fallback.astream args) := by
  intro α β w args
  refine ⟨?_, ?_, ?_, ?_⟩
  · intro run h
    constructor
    · simp [ModelWithFallback.stream, h]
    · intro fb2
      simp [ModelWithFallback.stream, h]
  · intro e h
    simp [ModelWithFallback.stream, h]
  · intro run h
    constructor
    · simp [ModelWithFallback.astream, h]
    · intro fb2
      simp [ModelWithFallback.astream, h]
  · intro e h
    simp [ModelWithFallback.astream, h]

/-- C10: the record inserted by `process_and_store_query` starts from the
automatic creation timestamp and then merges in the caller-supplied named
fields, so a caller-supplied `timestamp` field silently replaces the
automatic value, while without one the automatic timestamp survives. -/
theorem claim_C10 : ∀ (now : String) (kwargs : List (String × String)),
    (kwargs.map Prod.fst).Nodup →
    dictLookup (storedQueryDocument now kwargs) "timestamp"
      = (dictLookup kwargs "timestamp").or (some now)
    ∧ (∀ v, dictLookup kwargs "timestamp" = some v →
        dictLookup (storedQueryDocument now kwargs) "timestamp" = some v)
    ∧ (dictLookup kwargs "timestamp" = none →
        dictLookup (storedQueryDocument now kwargs) "timestamp" = some now) := by
  intro now kwargs hnd
  have hbase : dictLookup [("timestamp", now)] "timestamp" = some now := by
    rw [dictLookup, List.find?_cons_of_pos [] (by simp)]
    rfl
  have hmain : dictLookup (storedQueryDocument now kwargs) "timestamp"
      = (dictLookup kwargs "timestamp").or (some now) := by
    rw [storedQueryDocument, dictUpdate_lookup "timestamp" kwargs
      [("timestamp", now)] hnd, hbase]
  refine ⟨hmain, ?_, ?_⟩
  · intro v hv
    rw [hmain, hv]
    rfl
  · intro hv
    rw [hmain, hv]
    rfl

/-- Witness for C10: with `kwargs` carrying its own `timestamp`, the stored
record holds the caller value, not the automatic one; without it, the
automatic timestamp survives. -/
theorem claim_C10_witness :
    dictLookup
        (storedQueryDocument "2025-01-01T00:00:00"
          [("query", "what is RAG"), ("timestamp", "caller-supplied")])
        "timestamp"
      = some "caller-supplied"
    ∧ dictLookup
        (storedQueryDocument "2025-01-01T00:00:00" [("query", "what is RAG")])
        "timestamp"
      = some "2025-01-01T00:00:00" := by
  constructor
  · exact (claim_C10 "2025-01-01T00:00:00"
      [("query", "what is RAG"), ("timestamp", "caller-supplied")]
      (by decide)).2.1 "caller-supplied" (by decide)
  · exact (claim_C10 "2025-01-01T00:00:00" [("query", "what is RAG")]
      (by decide)).2.2 (by decide)

/-- Witness for C8: a primary whose stream starts, yields two fragments and
then fails mid-iteration is passed through unchanged — fragments and
mid-iteration error intact, fallback never consulted, no log. -/
theorem claim_C8_witness :
    ModelWithFallback.stream wPartial 0
      = (Except.ok ⟨["Hel", "lo"], some "connection lost"⟩, [])
    ∧ (ModelWithFallback.stream wFallsBack 0).1 = okModel.stream 0 :=
  ⟨((claim_C8 Nat String wPartial 0).1 ⟨["Hel", "lo"], some "connection lost"⟩
      rfl).1,
   (claim_C8 Nat String wFallsBack 0).2.1 "boom1" rfl⟩

end VirtualTA
